import Mathlib

/-!
# Shallow embedding of the storybook backend (`src/backend/server.py`)

The core of the program is the narrative renderer `generate_story_content`
(server.py lines 109-143) together with the `Story` record model
(lines 39-49) and the story endpoints `create_story` (lines 83-95) and
`get_story` (lines 97-102).

Python strings are modelled as Lean `String`; `str.strip()` is modelled on
the underlying character list (`stripChars`), dropping whitespace characters
from both ends, with `Char.isWhitespace` standing for Python's whitespace
class (the characters that ever occur at the ends of the template are `' '`
and `'\n'`, which both classes contain).  The MongoDB collection is modelled
as a list of records, with `insert_one` appending and `find_one` returning
the first match.  `uuid.uuid4()` and `datetime.utcnow()` are environment
inputs, so they appear as explicit parameters `gen_id` and `now`.
-/

namespace Storybook

/-- The pydantic `Story` model (server.py lines 39-49).  `kid_photo` and
`story_content` default to `None`; `created_at` is an abstract timestamp. -/
structure Story where
  id : String
  kid_name : String
  kid_age : Int
  kid_photo : Option String := none
  theme : String
  story_type : String
  length : String
  special_ingredients : List String := []
  created_at : Nat := 0
  story_content : Option String := none
deriving DecidableEq

/-- The pydantic `StoryCreate` request model (server.py lines 51-58). -/
structure StoryCreate where
  kid_name : String
  kid_age : Int
  kid_photo : Option String := none
  theme : String
  story_type : String
  length : String
  special_ingredients : List String := []
deriving DecidableEq

/-- Python `table.get(key, default)` for a dict built from a literal list
of string pairs. -/
def dictGet (table : List (String × String)) (key default : String) : String :=
  match table.find? (fun p => p.1 == key) with
  | some p => p.2
  | none => default

/-- The `theme_settings` dict (server.py lines 111-118). -/
def theme_settings : List (String × String) :=
  [("forest", "deep in a magical forest filled with talking animals"),
   ("space", "on an exciting journey through the stars and planets"),
   ("ocean", "in the depths of the ocean with colorful sea creatures"),
   ("castle", "in a grand castle with brave knights and wise princesses"),
   ("dinosaur", "in prehistoric times with friendly dinosaurs"),
   ("fairy", "in an enchanted fairy kingdom with magical powers")]

/-- The `length_pages` dict (server.py lines 123-127). -/
def length_pages : List (String × String) :=
  [("short", "a quick but exciting"),
   ("medium", "a wonderful"),
   ("long", "an epic and detailed")]

/-- Python `str.strip()` on the character list: drop whitespace from both
ends. -/
def stripChars (l : List Char) : List Char :=
  ((l.dropWhile Char.isWhitespace).reverse.dropWhile Char.isWhitespace).reverse

/-- Python `str.strip()` on strings. -/
def pyStrip (s : String) : String := ⟨stripChars s.data⟩

@[simp] theorem data_pyStrip (s : String) : (pyStrip s).data = stripChars s.data := rfl

/-- `", ".join(xs) if xs else "special surprises"` (server.py line 121). -/
def ingredients_text (special_ingredients : List String) : String :=
  if special_ingredients.isEmpty then "special surprises"
  else String.intercalate ", " special_ingredients

/-- `generate_story_content` (server.py lines 109-143): look up the setting
and pacing phrases with their fallbacks, resolve the ingredients text, fill
the fixed f-string template, and strip it. -/
def generate_story_content (story : Story) : String :=
  let setting := dictGet theme_settings story.theme "in a magical world"
  let ingredientsText := ingredients_text story.special_ingredients
  let story_length_desc := dictGet length_pages story.length "an amazing"
  pyStrip
    ("\n    Once upon a time, there was a brave and curious child named " ++
     story.kid_name ++ " who was " ++ toString story.kid_age ++
     " years old.\n    \n    One magical day, " ++ story.kid_name ++
     " found themselves " ++ setting ++ ". This was the beginning of " ++
     story_length_desc ++ " adventure!\n    \n    Along the way, " ++
     story.kid_name ++ " discovered " ++ ingredientsText ++
     " that would help them on their journey.\n    \n    This " ++
     story.story_type ++
     " story was filled with wonder, excitement, and magical moments that " ++
     story.kid_name ++ " would remember forever!\n    \n    The End.\n    ")

/-- The response dict of `POST /api/stories` (server.py line 95). -/
structure CreateStoryResponse where
  id : String
  message : String
  story_content : String
deriving DecidableEq

/-- `create_story` (server.py lines 83-95): build the record from the
request (fresh `gen_id` and `now` supplied by the environment), render the
content into it, insert the completed record once, and answer with id,
message and content. -/
def create_story (story_data : StoryCreate) (gen_id : String) (now : Nat)
    (db : List Story) : List Story × CreateStoryResponse :=
  let story_obj : Story :=
    { id := gen_id, kid_name := story_data.kid_name,
      kid_age := story_data.kid_age, kid_photo := story_data.kid_photo,
      theme := story_data.theme, story_type := story_data.story_type,
      length := story_data.length,
      special_ingredients := story_data.special_ingredients,
      created_at := now, story_content := none }
  let story_content := generate_story_content story_obj
  let story_obj := { story_obj with story_content := some story_content }
  (db ++ [story_obj],
   { id := story_obj.id, message := "Story created successfully",
     story_content := story_content })

/-- The two possible responses of `GET /api/stories/{story_id}`
(server.py lines 97-102): the record, or the not-found value
`({"error": "Story not found"}, 404)`. -/
inductive GetStoryResponse where
  | story (s : Story)
  | notFound
deriving DecidableEq

/-- `db.stories.find_one({"id": story_id})`: first record with that id. -/
def find_one (db : List Story) (story_id : String) : Option Story :=
  db.find? (fun s => s.id == story_id)

/-- `get_story` (server.py lines 97-102). -/
def get_story (db : List Story) (story_id : String) : GetStoryResponse :=
  match find_one db story_id with
  | none => GetStoryResponse.notFound
  | some s => GetStoryResponse.story s

/-! ## The rendered text, characterised -/

/-- The value of `generate_story_content`, written out: the stripped
five-paragraph template with the resolved phrases interpolated. -/
def rendered (story : Story) : String :=
  "Once upon a time, there was a brave and curious child named " ++
  story.kid_name ++ " who was " ++ toString story.kid_age ++
  " years old.\n    \n    One magical day, " ++ story.kid_name ++
  " found themselves " ++ dictGet theme_settings story.theme "in a magical world" ++
  ". This was the beginning of " ++ dictGet length_pages story.length "an amazing" ++
  " adventure!\n    \n    Along the way, " ++ story.kid_name ++
  " discovered " ++ ingredients_text story.special_ingredients ++
  " that would help them on their journey.\n    \n    This " ++
  story.story_type ++
  " story was filled with wonder, excitement, and magical moments that " ++
  story.kid_name ++ " would remember forever!\n    \n    The End."

theorem dropWhile_fixed_head {p : Char → Bool} {pre pre' : List Char}
    (rest : List Char) (h : pre.dropWhile p = pre')
    (hne : pre'.isEmpty = false) :
    (pre ++ rest).dropWhile p = pre' ++ rest := by
  rw [List.dropWhile_append, h, hne]
  simp

theorem stripChars_sandwich (M : List Char) :
    stripChars
        (("\n    Once upon a time, there was a brave and curious child named ").data ++
          (M ++ (" would remember forever!\n    \n    The End.\n    ").data))
      = ("Once upon a time, there was a brave and curious child named ").data ++
          (M ++ (" would remember forever!\n    \n    The End.").data) := by
  unfold stripChars
  rw [dropWhile_fixed_head
        (M ++ (" would remember forever!\n    \n    The End.\n    ").data)
        (show ("\n    Once upon a time, there was a brave and curious child named ").data.dropWhile Char.isWhitespace
            = ("Once upon a time, there was a brave and curious child named ").data by decide)
        (by decide)]
  rw [List.reverse_append, List.reverse_append]
  rw [List.append_assoc]
  rw [dropWhile_fixed_head
        (M.reverse ++ ("Once upon a time, there was a brave and curious child named ").data.reverse)
        (show (" would remember forever!\n    \n    The End.\n    ").data.reverse.dropWhile Char.isWhitespace
            = (" would remember forever!\n    \n    The End.").data.reverse by decide)
        (by decide)]
  simp

/-- The central characterisation: `generate_story_content` returns exactly
the instantiated, stripped template. -/
theorem generate_story_content_eq (story : Story) :
    generate_story_content story = rendered story := by
  apply String.ext
  have h := stripChars_sandwich
      (story.kid_name.data ++ (" who was ").data ++ (toString story.kid_age).data ++
       (" years old.\n    \n    One magical day, ").data ++ story.kid_name.data ++
       (" found themselves ").data ++
       (dictGet theme_settings story.theme "in a magical world").data ++
       (". This was the beginning of ").data ++
       (dictGet length_pages story.length "an amazing").data ++
       (" adventure!\n    \n    Along the way, ").data ++ story.kid_name.data ++
       (" discovered ").data ++ (ingredients_text story.special_ingredients).data ++
       (" that would help them on their journey.\n    \n    This ").data ++
       story.story_type.data ++
       (" story was filled with wonder, excitement, and magical moments that ").data ++
       story.kid_name.data)
  simp only [List.append_assoc] at h
  simp only [generate_story_content, rendered, data_pyStrip, String.data_append,
    List.append_assoc]
  exact h

/-! ## Substring containment -/

/-- `t` occurs as a contiguous substring of `s`. -/
def containsSub (s t : String) : Prop := t.data <:+: s.data

instance (s t : String) : Decidable (containsSub s t) :=
  inferInstanceAs (Decidable (t.data <:+: s.data))

theorem containsSub_appR (u : String) {s t : String} (h : containsSub s t) :
    containsSub (s ++ u) t := by
  have h' : ∃ p q, p ++ t.data ++ q = s.data := h
  obtain ⟨p, q, hp⟩ := h'
  exact ⟨p, q ++ u.data, by rw [String.data_append, ← hp]; simp [List.append_assoc]⟩

theorem containsSub_right (u t : String) : containsSub (u ++ t) t :=
  ⟨u.data, [], by simp⟩

/-- The rendered text always contains the resolved setting phrase. -/
theorem contains_setting (story : Story) :
    containsSub (generate_story_content story)
      (dictGet theme_settings story.theme "in a magical world") := by
  rw [generate_story_content_eq]
  simp only [rendered]
  apply containsSub_appR
  apply containsSub_appR
  apply containsSub_appR
  apply containsSub_appR
  apply containsSub_appR
  apply containsSub_appR
  apply containsSub_appR
  apply containsSub_appR
  apply containsSub_appR
  apply containsSub_appR
  apply containsSub_appR
  apply containsSub_right

/-- The rendered text always contains the resolved pacing phrase. -/
theorem contains_pacing (story : Story) :
    containsSub (generate_story_content story)
      (dictGet length_pages story.length "an amazing") := by
  rw [generate_story_content_eq]
  simp only [rendered]
  apply containsSub_appR
  apply containsSub_appR
  apply containsSub_appR
  apply containsSub_appR
  apply containsSub_appR
  apply containsSub_appR
  apply containsSub_appR
  apply containsSub_appR
  apply containsSub_appR
  apply containsSub_right

/-- The rendered text always contains the resolved ingredients text. -/
theorem contains_ingredients (story : Story) :
    containsSub (generate_story_content story)
      (ingredients_text story.special_ingredients) := by
  rw [generate_story_content_eq]
  simp only [rendered]
  apply containsSub_appR
  apply containsSub_appR
  apply containsSub_appR
  apply containsSub_appR
  apply containsSub_appR
  apply containsSub_right

/-- An unrecognized theme resolves to the generic fallback phrase. -/
theorem dictGet_theme_fallback {t : String} (h1 : t ≠ "forest")
    (h2 : t ≠ "space") (h3 : t ≠ "ocean") (h4 : t ≠ "castle")
    (h5 : t ≠ "dinosaur") (h6 : t ≠ "fairy") (d : String) :
    dictGet theme_settings t d = d := by
  simp [dictGet, theme_settings, Ne.symm h1, Ne.symm h2, Ne.symm h3,
    Ne.symm h4, Ne.symm h5, Ne.symm h6]

/-- An unrecognized length resolves to the generic fallback phrase. -/
theorem dictGet_length_fallback {t : String} (h1 : t ≠ "short")
    (h2 : t ≠ "medium") (h3 : t ≠ "long") (d : String) :
    dictGet length_pages t d = d := by
  simp [dictGet, length_pages, Ne.symm h1, Ne.symm h2, Ne.symm h3]

/-- A non-empty ingredient list is comma-joined in order. -/
theorem ingredients_text_of_ne {l : List String} (h : l ≠ []) :
    ingredients_text l = String.intercalate ", " l := by
  cases l with
  | nil => exact absurd rfl h
  | cons a t => rfl

/-- The rendered text starts with the letter `O` of "Once upon a time". -/
theorem generate_head (story : Story) :
    (generate_story_content story).data.head? = some 'O' := by
  rw [generate_story_content_eq]
  simp only [rendered, String.data_append, List.head?_append]
  rw [show ("Once upon a time, there was a brave and curious child named ").data.head?
      = some 'O' from by decide]
  rfl

/-- The rendered text ends with the final period of "The End.". -/
theorem generate_getLast (story : Story) :
    (generate_story_content story).data.getLast? = some '.' := by
  rw [generate_story_content_eq]
  simp only [rendered, String.data_append, List.getLast?_append]
  rw [show (" would remember forever!\n    \n    The End.").data.getLast?
      = some '.' from by decide]
  rfl

/-! ## Concrete records used by the witnesses -/

/-- The concrete request of the spec's first scenario (and of
`src/backend_test.py`). -/
def testStory : Story :=
  { id := "test-id", kid_name := "Test Kid", kid_age := 5, kid_photo := none,
    theme := "forest", story_type := "adventure", length := "short",
    special_ingredients := ["Magic spells", "Talking animals"],
    created_at := 0, story_content := none }

/-- A field-by-field copy of `testStory`. -/
def testStoryCopy : Story :=
  { id := "test-id", kid_name := "Test Kid", kid_age := 5, kid_photo := none,
    theme := "forest", story_type := "adventure", length := "short",
    special_ingredients := ["Magic spells", "Talking animals"],
    created_at := 0, story_content := none }

/-- A record with an unrecognized theme and length and no ingredients. -/
def volcanoStory : Story :=
  { id := "v-id", kid_name := "Zoe", kid_age := 4, kid_photo := none,
    theme := "volcano", story_type := "mystery", length := "epic",
    special_ingredients := [], created_at := 1, story_content := none }

/-! ## The claims -/

/-- C1: each of the six recognized themes puts its exact fixed phrase into
the rendered text; any other theme string yields the fixed fallback phrase
"in a magical world", without failing. -/
theorem C1_theme_phrase (story : Story) :
    (story.theme = "forest" → containsSub (generate_story_content story)
      "deep in a magical forest filled with talking animals") ∧
    (story.theme = "space" → containsSub (generate_story_content story)
      "on an exciting journey through the stars and planets") ∧
    (story.theme = "ocean" → containsSub (generate_story_content story)
      "in the depths of the ocean with colorful sea creatures") ∧
    (story.theme = "castle" → containsSub (generate_story_content story)
      "in a grand castle with brave knights and wise princesses") ∧
    (story.theme = "dinosaur" → containsSub (generate_story_content story)
      "in prehistoric times with friendly dinosaurs") ∧
    (story.theme = "fairy" → containsSub (generate_story_content story)
      "in an enchanted fairy kingdom with magical powers") ∧
    (story.theme ≠ "forest" → story.theme ≠ "space" → story.theme ≠ "ocean" →
      story.theme ≠ "castle" → story.theme ≠ "dinosaur" → story.theme ≠ "fairy" →
      containsSub (generate_story_content story) "in a magical world") := by
  refine ⟨?_, ?_, ?_, ?_, ?_, ?_, ?_⟩
  · intro h
    have hc := contains_setting story
    rw [h] at hc
    rwa [show dictGet theme_settings "forest" "in a magical world"
        = "deep in a magical forest filled with talking animals" from by decide] at hc
  · intro h
    have hc := contains_setting story
    rw [h] at hc
    rwa [show dictGet theme_settings "space" "in a magical world"
        = "on an exciting journey through the stars and planets" from by decide] at hc
  · intro h
    have hc := contains_setting story
    rw [h] at hc
    rwa [show dictGet theme_settings "ocean" "in a magical world"
        = "in the depths of the ocean with colorful sea creatures" from by decide] at hc
  · intro h
    have hc := contains_setting story
    rw [h] at hc
    rwa [show dictGet theme_settings "castle" "in a magical world"
        = "in a grand castle with brave knights and wise princesses" from by decide] at hc
  · intro h
    have hc := contains_setting story
    rw [h] at hc
    rwa [show dictGet theme_settings "dinosaur" "in a magical world"
        = "in prehistoric times with friendly dinosaurs" from by decide] at hc
  · intro h
    have hc := contains_setting story
    rw [h] at hc
    rwa [show dictGet theme_settings "fairy" "in a magical world"
        = "in an enchanted fairy kingdom with magical powers" from by decide] at hc
  · intro h1 h2 h3 h4 h5 h6
    have hc := contains_setting story
    rwa [dictGet_theme_fallback h1 h2 h3 h4 h5 h6] at hc

theorem C1_theme_phrase_witness :
    containsSub (generate_story_content testStory)
      "deep in a magical forest filled with talking animals" ∧
    containsSub (generate_story_content volcanoStory) "in a magical world" :=
  ⟨(C1_theme_phrase testStory).1 rfl,
   (C1_theme_phrase volcanoStory).2.2.2.2.2.2 (by decide) (by decide) (by decide)
     (by decide) (by decide) (by decide)⟩

/-- C2: each of the three recognized lengths puts its fixed pacing phrase
into the rendered text; any other length string yields the fallback
"an amazing". -/
theorem C2_pacing_phrase (story : Story) :
    (story.length = "short" →
      containsSub (generate_story_content story) "a quick but exciting") ∧
    (story.length = "medium" →
      containsSub (generate_story_content story) "a wonderful") ∧
    (story.length = "long" →
      containsSub (generate_story_content story) "an epic and detailed") ∧
    (story.length ≠ "short" → story.length ≠ "medium" → story.length ≠ "long" →
      containsSub (generate_story_content story) "an amazing") := by
  refine ⟨?_, ?_, ?_, ?_⟩
  · intro h
    have hc := contains_pacing story
    rw [h] at hc
    rwa [show dictGet length_pages "short" "an amazing"
        = "a quick but exciting" from by decide] at hc
  · intro h
    have hc := contains_pacing story
    rw [h] at hc
    rwa [show dictGet length_pages "medium" "an amazing"
        = "a wonderful" from by decide] at hc
  · intro h
    have hc := contains_pacing story
    rw [h] at hc
    rwa [show dictGet length_pages "long" "an amazing"
        = "an epic and detailed" from by decide] at hc
  · intro h1 h2 h3
    have hc := contains_pacing story
    rwa [dictGet_length_fallback h1 h2 h3] at hc

theorem C2_pacing_phrase_witness :
    containsSub (generate_story_content testStory) "a quick but exciting" ∧
    containsSub (generate_story_content volcanoStory) "an amazing" :=
  ⟨(C2_pacing_phrase testStory).1 rfl,
   (C2_pacing_phrase volcanoStory).2.2.2 (by decide) (by decide) (by decide)⟩

/-- C3: an empty ingredient list renders the fixed phrase
"special surprises"; a non-empty list renders the elements joined by
", " in input order. -/
theorem C3_ingredients (story : Story) :
    (story.special_ingredients = [] →
      containsSub (generate_story_content story) "special surprises") ∧
    (story.special_ingredients ≠ [] →
      containsSub (generate_story_content story)
        (String.intercalate ", " story.special_ingredients)) := by
  constructor
  · intro h
    have hc := contains_ingredients story
    rw [h] at hc
    rwa [show ingredients_text [] = "special surprises" from rfl] at hc
  · intro h
    have hc := contains_ingredients story
    rwa [ingredients_text_of_ne h] at hc

theorem C3_ingredients_witness :
    containsSub (generate_story_content volcanoStory) "special surprises" ∧
    containsSub (generate_story_content testStory)
      (String.intercalate ", " ["Magic spells", "Talking animals"]) :=
  ⟨(C3_ingredients volcanoStory).1 rfl, (C3_ingredients testStory).2 (by decide)⟩

/-- C4: the renderer is total — every well-typed record renders to a
non-empty text with no failure path, and an unrecognized theme such as
"volcano" yields a text containing "in a magical world". -/
theorem C4_renderer_total (story : Story) :
    generate_story_content story ≠ "" ∧
    (story.theme = "volcano" →
      containsSub (generate_story_content story) "in a magical world") := by
  constructor
  · intro hcontr
    have h := generate_head story
    rw [hcontr] at h
    exact absurd h (by decide)
  · intro h
    have hc := contains_setting story
    rwa [h, dictGet_theme_fallback (by decide) (by decide) (by decide)
      (by decide) (by decide) (by decide)] at hc

theorem C4_renderer_total_witness :
    generate_story_content volcanoStory ≠ "" ∧
    containsSub (generate_story_content volcanoStory) "in a magical world" :=
  ⟨(C4_renderer_total volcanoStory).1, (C4_renderer_total volcanoStory).2 rfl⟩

set_option maxRecDepth 100000 in
/-- C5: the concrete scenario — the rendered text for the "Test Kid"
request contains all six required substrings. -/
theorem C5_concrete_scenario :
    containsSub (generate_story_content testStory) "Test Kid" ∧
    containsSub (generate_story_content testStory) "5 years old" ∧
    containsSub (generate_story_content testStory)
      "deep in a magical forest filled with talking animals" ∧
    containsSub (generate_story_content testStory) "a quick but exciting" ∧
    containsSub (generate_story_content testStory) "Magic spells, Talking animals" ∧
    containsSub (generate_story_content testStory) "adventure story" := by
  decide

set_option maxRecDepth 10000 in
/-- C6: the rendered text is exactly the instantiation of the fixed
five-paragraph template with the whitespace of the ends trimmed: it ends
with "The End." and neither starts nor ends with a whitespace character. -/
theorem C6_template_shape (story : Story) :
    generate_story_content story = rendered story ∧
    (∃ pre : String, generate_story_content story = pre ++ "The End.") ∧
    (∀ c, (generate_story_content story).data.head? = some c →
      c.isWhitespace = false) ∧
    (∀ c, (generate_story_content story).data.getLast? = some c →
      c.isWhitespace = false) := by
  refine ⟨generate_story_content_eq story, ?_, ?_, ?_⟩
  · refine ⟨"Once upon a time, there was a brave and curious child named " ++
      story.kid_name ++ " who was " ++ toString story.kid_age ++
      " years old.\n    \n    One magical day, " ++ story.kid_name ++
      " found themselves " ++ dictGet theme_settings story.theme "in a magical world" ++
      ". This was the beginning of " ++ dictGet length_pages story.length "an amazing" ++
      " adventure!\n    \n    Along the way, " ++ story.kid_name ++
      " discovered " ++ ingredients_text story.special_ingredients ++
      " that would help them on their journey.\n    \n    This " ++
      story.story_type ++
      " story was filled with wonder, excitement, and magical moments that " ++
      story.kid_name ++ " would remember forever!\n    \n    ", ?_⟩
    rw [generate_story_content_eq]
    apply String.ext
    simp only [rendered, String.data_append, List.append_assoc, List.cons_append,
      List.nil_append]
  · intro c hc
    rw [generate_head story] at hc
    injection hc with h
    rw [← h]
    decide
  · intro c hc
    rw [generate_getLast story] at hc
    injection hc with h
    rw [← h]
    decide

set_option maxRecDepth 100000 in
theorem C6_template_shape_witness :
    Char.isWhitespace 'O' = false ∧ Char.isWhitespace '.' = false :=
  ⟨(C6_template_shape testStory).2.2.1 'O' (by decide),
   (C6_template_shape testStory).2.2.2 '.' (by decide)⟩

/-- C7: the renderer is deterministic and pure — two records that agree on
every field render to the same text (the embedding is a pure function, so
there is no I/O and no state to mutate). -/
theorem C7_deterministic (s₁ s₂ : Story)
    (h1 : s₁.id = s₂.id) (h2 : s₁.kid_name = s₂.kid_name)
    (h3 : s₁.kid_age = s₂.kid_age) (h4 : s₁.kid_photo = s₂.kid_photo)
    (h5 : s₁.theme = s₂.theme) (h6 : s₁.story_type = s₂.story_type)
    (h7 : s₁.length = s₂.length)
    (h8 : s₁.special_ingredients = s₂.special_ingredients)
    (h9 : s₁.created_at = s₂.created_at)
    (h10 : s₁.story_content = s₂.story_content) :
    generate_story_content s₁ = generate_story_content s₂ := by
  have h : s₁ = s₂ := by
    cases s₁
    cases s₂
    simp_all
  rw [h]

theorem C7_deterministic_witness :
    generate_story_content testStory = generate_story_content testStoryCopy :=
  C7_deterministic testStory testStoryCopy rfl rfl rfl rfl rfl rfl rfl rfl rfl rfl

/-- C8: a lookup whose id matches no stored record yields the value-level
not-found response, which differs from every successful record response;
no exception is modelled because the code has no raise on this path. -/
theorem C8_lookup_miss (db : List Story) (sid : String)
    (h : ∀ s ∈ db, s.id ≠ sid) :
    get_story db sid = GetStoryResponse.notFound ∧
    ∀ s : Story, GetStoryResponse.story s ≠ GetStoryResponse.notFound := by
  constructor
  · have hf : find_one db sid = none := by
      unfold find_one
      rw [List.find?_eq_none]
      intro x hx
      simpa using h x hx
    unfold get_story
    rw [hf]
  · intro s hcontr
    exact GetStoryResponse.noConfusion hcontr

theorem C8_lookup_miss_witness :
    get_story [] "missing" = GetStoryResponse.notFound :=
  (C8_lookup_miss [] "missing" (by simp)).1

/-- A creation request used to refute C9's response shape. -/
def inputA : StoryCreate :=
  { kid_name := "Ava", kid_age := 6, kid_photo := some "photo-a",
    theme := "forest", story_type := "adventure", length := "short",
    special_ingredients := [] }

/-- Like `inputA` but with a different photo. -/
def inputB : StoryCreate :=
  { kid_name := "Ava", kid_age := 6, kid_photo := some "photo-b",
    theme := "forest", story_type := "adventure", length := "short",
    special_ingredients := [] }

set_option maxRecDepth 100000 in
/-- C9 counterexample: two creation requests that differ (in `kid_photo`)
produce byte-identical responses, so the response cannot carry the
completed Story Record with all §3 fields — it only carries id, message
and the rendered text. -/
theorem C9_counterexample :
    inputA ≠ inputB ∧
    (create_story inputA "fixed-id" 0 []).2 = (create_story inputB "fixed-id" 0 []).2 := by
  constructor
  · decide
  · decide

/-- C9 (amended): creation inserts the completed record exactly once, with
`story_content` set to the renderer's output for that record, and responds
with the new id, a fixed success message and the rendered text. -/
theorem C9_create_response (input : StoryCreate) (gen_id : String) (now : Nat)
    (db : List Story) :
    ∃ record : Story,
      (create_story input gen_id now db).1 = db ++ [record] ∧
      record.id = gen_id ∧
      record.kid_name = input.kid_name ∧
      record.kid_age = input.kid_age ∧
      record.kid_photo = input.kid_photo ∧
      record.theme = input.theme ∧
      record.story_type = input.story_type ∧
      record.length = input.length ∧
      record.special_ingredients = input.special_ingredients ∧
      record.created_at = now ∧
      record.story_content = some (generate_story_content record) ∧
      (create_story input gen_id now db).2 =
        { id := gen_id, message := "Story created successfully",
          story_content := generate_story_content record } :=
  ⟨_, rfl, rfl, rfl, rfl, rfl, rfl, rfl, rfl, rfl, rfl, rfl, rfl⟩

/-- C10: the rendered text does not depend on `kid_photo`, and the photo is
stored by creation and returned by lookup unchanged. -/
theorem C10_photo_independence (s₁ s₂ : Story)
    (h1 : s₁.id = s₂.id) (h2 : s₁.kid_name = s₂.kid_name)
    (h3 : s₁.kid_age = s₂.kid_age) (h4 : s₁.theme = s₂.theme)
    (h5 : s₁.story_type = s₂.story_type) (h6 : s₁.length = s₂.length)
    (h7 : s₁.special_ingredients = s₂.special_ingredients)
    (h8 : s₁.created_at = s₂.created_at)
    (h9 : s₁.story_content = s₂.story_content) :
    generate_story_content s₁ = generate_story_content s₂ ∧
    (∀ (input : StoryCreate) (gen_id : String) (now : Nat) (db : List Story),
      ∃ r : Story, (create_story input gen_id now db).1 = db ++ [r] ∧
        r.kid_photo = input.kid_photo) ∧
    (∀ (db : List Story) (sid : String) (s : Story),
      find_one db sid = some s → get_story db sid = GetStoryResponse.story s) := by
  refine ⟨?_, ?_, ?_⟩
  · rw [generate_story_content_eq, generate_story_content_eq]
    simp only [rendered, h2, h3, h4, h5, h6, h7]
  · intro input gen_id now db
    exact ⟨_, rfl, rfl⟩
  · intro db sid s hf
    unfold get_story
    rw [hf]

/-- A record with a photo. -/
def photoStoryA : Story :=
  { id := "pid", kid_name := "Mia", kid_age := 7, kid_photo := some "photo-a",
    theme := "space", story_type := "bedtime", length := "medium",
    special_ingredients := ["Rockets"], created_at := 3, story_content := none }

/-- Like `photoStoryA` but with a different photo. -/
def photoStoryB : Story :=
  { id := "pid", kid_name := "Mia", kid_age := 7, kid_photo := some "photo-b",
    theme := "space", story_type := "bedtime", length := "medium",
    special_ingredients := ["Rockets"], created_at := 3, story_content := none }

theorem C10_photo_independence_witness :
    generate_story_content photoStoryA = generate_story_content photoStoryB :=
  (C10_photo_independence photoStoryA photoStoryB rfl rfl rfl rfl rfl rfl rfl
    rfl rfl).1

end Storybook
